import Mathlib

/-!
# Verification of the auraescript / auraed Cell subsystem

A shallow embedding of `src/auraed/src/cells/cell_service/cells/cell.rs`,
`src/auraed/src/cells/cell_service/cells/cgroups/allocation.rs` and
`src/auraed/src/cells/cell_service/executables/executable.rs`.

External effects (spawning the nested daemon, cgroup filesystem writes,
signalling, waiting) are modelled by an environment record that fixes the
outcome of each external call, and every operation additionally returns the
list of external events it performed, so that ordering properties can be
stated over the trace.
-/

namespace Aurae

/-- Hierarchical cell name, `/`-separated (`cell_name.rs` is not among the
embedded sources; the spec defines it as a validated hierarchical string). -/
abbrev CellName := String

/-- Modelled from the spec: `leaf()` returns the final `/`-separated segment
of a `CellName` (the `CellName` implementation is not among the embedded
sources). -/
def CellName.leaf (n : CellName) : String :=
  (n.splitOn "/").getLastD ""

/-- Modelled from the spec: isolation controls, a set of namespace flags
(the `IsolationControls` implementation is not among the embedded sources;
its internal structure is irrelevant to the embedded operations, which only
clone and pass it through). -/
structure IsolationControls where
  flags : List String
  deriving Repr, DecidableEq

/-- Modelled from the spec: the cgroup resource spec; the embedded operations
only clone and pass it through. -/
structure CgroupSpec where
  limits : List (String × Option Int)
  deriving Repr, DecidableEq

/-- `CellSpec` as used by `cell.rs`: carries `cgroup_spec` and `iso_ctl`. -/
structure CellSpec where
  cgroup_spec : CgroupSpec
  iso_ctl : IsolationControls
  deriving Repr, DecidableEq

/-- Client configuration of a nested daemon (`aurae_client::AuraeConfig`);
only cloned and returned by the embedded code, so modelled by its identity. -/
structure AuraeConfig where
  socket : String
  deriving Repr, DecidableEq

/-- The nested daemon handle as seen by `cell.rs`: a pid and a pre-generated
client configuration. -/
structure NestedAuraed where
  pid : Int
  client_config : AuraeConfig
  deriving Repr, DecidableEq

/-- The cgroup handle as seen by `cell.rs`: `Cgroup::new` is side-effect free
and stores the name and spec. -/
structure Cgroup where
  cell_name : CellName
  spec : CgroupSpec
  deriving Repr, DecidableEq

/-- Modelled from the spec: the child Cell Cache (`cells.rs` is not among the
embedded sources). `Cells::new(cell_name)` creates an empty cache; its
internal map is opaque here and its operations are recorded as trace
events. -/
structure Cells where
  cell_name : CellName
  deriving Repr, DecidableEq

/-- `Cells::new` — Modelled from the spec: creates an empty cache for the
given cell name. -/
def Cells.new (cell_name : CellName) : Cells :=
  { cell_name := cell_name }

/-- The error enum `CellsError` as used by `cell.rs` (sources of wrapped
errors are carried as strings). -/
inductive CellsError where
  | CellNotAllocated (cell_name : CellName)
  | FailedToAllocateCell (cell_name : CellName) (source : String)
  | AbortedAllocateCell (cell_name : CellName) (source : String)
  | FailedToFreeCell (cell_name : CellName) (source : String)
  | FailedToKillCellChildren (cell_name : CellName) (source : String)
  deriving Repr, DecidableEq

/-- External events performed by cell operations, in order. -/
inductive Event where
  | childrenBroadcastFree
  | childrenBroadcastKill
  | childrenAllocate (name : CellName)
  | childrenFree (name : CellName)
  | childrenGet (name : CellName)
  | childrenCellGraph
  | nestedAuraedNew (leaf : String)
  | nestedShutdown
  | nestedKill
  | nestedExited (status : Int)
  | cgroupAddTask (pid : Int)
  | cgroupDelete
  deriving Repr, DecidableEq

/-- `CellState` of `cell.rs`: `Unallocated`, `Allocated { cgroup,
nested_auraed, children }`, `Freed`. -/
inductive CellState where
  | Unallocated
  | Allocated (cgroup : Cgroup) (nested_auraed : NestedAuraed) (children : Cells)
  | Freed
  deriving Repr, DecidableEq

/-- Whether the state is the `Allocated` variant. -/
def CellState.isAllocated : CellState → Bool
  | .Allocated _ _ _ => true
  | _ => false

/-- The `Cell` struct of `cell.rs`: name, spec and state; fields private in
the source. -/
structure Cell where
  cell_name : CellName
  spec : CellSpec
  state : CellState
  deriving Repr, DecidableEq

/-- `Cell::new`. -/
def Cell.new (cell_name : CellName) (cell_spec : CellSpec) : Cell :=
  { cell_name := cell_name, spec := cell_spec, state := .Unallocated }

/-- Fixes the outcome of every external call a cell operation may make:
the result of `NestedAuraed::new`, of `cgroup.add_task`, of
`nested_auraed.shutdown()` / `.kill()` (an exit status on success) and of
`cgroup.delete()`; plus oracle results for operations forwarded to the
(opaque) child cache. -/
structure Env where
  nestedNew : Except String NestedAuraed
  addTask : Except String Unit
  shutdownRes : Except String Int
  killRes : Except String Int
  deleteRes : Except String Unit
  childAllocateRes : Except CellsError Unit
  childFreeRes : Except CellsError Unit
  childGetRes : Except CellsError Unit
  childGraphRes : Except CellsError Unit
  deriving Repr

/-- The outcome of a cell operation: the cell afterwards, the returned
`Result`, and the external events performed, in order. -/
structure Outcome (α : Type) where
  cell : Cell
  result : Except CellsError α
  trace : List Event
  deriving Repr

/-- `Cell::allocate` (`cell.rs` lines 102–139): no-op unless `Unallocated`;
`NestedAuraed::new` failure maps to `FailedToAllocateCell`; `add_task`
failure performs best-effort `auraed.kill()` + `cgroup.delete()` and maps to
`AbortedAllocateCell`; on success the state becomes `Allocated` with an
empty child cache. -/
def Cell.allocate (env : Env) (c : Cell) : Outcome Unit :=
  match c.state with
  | .Unallocated =>
    let name := CellName.leaf c.cell_name
    match env.nestedNew with
    | .error e =>
      { cell := c
        result := .error (.FailedToAllocateCell c.cell_name e)
        trace := [.nestedAuraedNew name] }
    | .ok auraed =>
      let pid := auraed.pid
      let cgroup : Cgroup :=
        { cell_name := c.cell_name, spec := c.spec.cgroup_spec }
      match env.addTask with
      | .error e =>
        { cell := c
          result := .error (.AbortedAllocateCell c.cell_name e)
          trace := [.nestedAuraedNew name, .cgroupAddTask pid,
                    .nestedKill, .cgroupDelete] }
      | .ok _ =>
        { cell := { c with
            state := .Allocated cgroup auraed (Cells.new c.cell_name) }
          result := .ok ()
          trace := [.nestedAuraedNew name, .cgroupAddTask pid] }
  | _ => { cell := c, result := .ok (), trace := [] }

/-- The `do_free!` macro of `cell.rs` (lines 42–73), expanded as in
`free`/`kill`: when `Allocated`, broadcast to the children, call the nested
daemon (`shutdown` or `kill`), then `cgroup.delete()`. Note the `?` operator
in the macro returns from the enclosing function on error, so the trailing
`self.state = CellState::Freed` is only reached when both calls succeed (or
when the state was not `Allocated` to begin with). -/
def do_free (c : Cell) (broadcastEvent : Event) (nestedCallEvent : Event)
    (nestedCallRes : Except String Int) (deleteRes : Except String Unit)
    (nestedErr : CellName → String → CellsError) : Outcome Unit :=
  match c.state with
  | .Allocated _cgroup _nested_auraed _children =>
    match nestedCallRes with
    | .error e =>
      { cell := c
        result := .error (nestedErr c.cell_name e)
        trace := [broadcastEvent, nestedCallEvent] }
    | .ok exit_status =>
      match deleteRes with
      | .error e =>
        { cell := c
          result := .error (.FailedToFreeCell c.cell_name e)
          trace := [broadcastEvent, nestedCallEvent,
                    .nestedExited exit_status, .cgroupDelete] }
      | .ok _ =>
        { cell := { c with state := .Freed }
          result := .ok ()
          trace := [broadcastEvent, nestedCallEvent,
                    .nestedExited exit_status, .cgroupDelete] }
  | _ =>
    { cell := { c with state := .Freed }, result := .ok (), trace := [] }

/-- `Cell::free`: `do_free!(self, shutdown(), broadcast_free())`. -/
def Cell.free (env : Env) (c : Cell) : Outcome Unit :=
  do_free c .childrenBroadcastFree .nestedShutdown env.shutdownRes
    env.deleteRes (fun n e => .FailedToKillCellChildren n e)

/-- `Cell::kill`: `do_free!(self, kill(), broadcast_kill())`. -/
def Cell.kill (env : Env) (c : Cell) : Outcome Unit :=
  do_free c .childrenBroadcastKill .nestedKill env.killRes
    env.deleteRes (fun n e => .FailedToKillCellChildren n e)

/-- `Cell::client_config` (`cell.rs` lines 160–168). -/
def Cell.client_config (c : Cell) : Except CellsError AuraeConfig :=
  match c.state with
  | .Allocated _ nested_auraed _ => .ok nested_auraed.client_config
  | _ => .error (.CellNotAllocated c.cell_name)

/-- `Cell::name` accessor. -/
def Cell.name (c : Cell) : CellName := c.cell_name

/-- `Cell::spec` accessor (named with a blank to avoid clashing with the
field projection). -/
def Cell.specOf (c : Cell) : CellSpec := c.spec

/-- `<Cell as CellsCache>::allocate` (`cell.rs` lines 190–200): fails with
`CellNotAllocated` unless `Allocated`, otherwise forwards to the child cache
(oracle result). -/
def Cell.cacheAllocate (env : Env) (c : Cell) (child_name : CellName)
    (_child_spec : CellSpec) : Outcome Unit :=
  match c.state with
  | .Allocated _ _ _ =>
    { cell := c, result := env.childAllocateRes
      trace := [.childrenAllocate child_name] }
  | _ =>
    { cell := c, result := .error (.CellNotAllocated c.cell_name)
      trace := [] }

/-- `<Cell as CellsCache>::free` (`cell.rs` lines 202–208). -/
def Cell.cacheFree (env : Env) (c : Cell) (child_name : CellName) :
    Outcome Unit :=
  match c.state with
  | .Allocated _ _ _ =>
    { cell := c, result := env.childFreeRes
      trace := [.childrenFree child_name] }
  | _ =>
    { cell := c, result := .error (.CellNotAllocated c.cell_name)
      trace := [] }

/-- `<Cell as CellsCache>::get` (`cell.rs` lines 210–219). -/
def Cell.cacheGet (env : Env) (c : Cell) (child_name : CellName) :
    Outcome Unit :=
  match c.state with
  | .Allocated _ _ _ =>
    { cell := c, result := env.childGetRes
      trace := [.childrenGet child_name] }
  | _ =>
    { cell := c, result := .error (.CellNotAllocated c.cell_name)
      trace := [] }

/-- `<Cell as CellsCache>::cell_graph` (`cell.rs` lines 237–245). -/
def Cell.cellGraph (env : Env) (c : Cell) : Outcome Unit :=
  match c.state with
  | .Allocated _ _ _ =>
    { cell := c, result := env.childGraphRes
      trace := [.childrenCellGraph] }
  | _ =>
    { cell := c, result := .error (.CellNotAllocated c.cell_name)
      trace := [] }

/-- `<Cell as Drop>::drop` (`cell.rs` lines 248–256): calls `self.kill()`
and discards the result; only the cell and the performed events remain. -/
def Cell.dropCell (env : Env) (c : Cell) : Cell × List Event :=
  let out := Cell.kill env c
  (out.cell, out.trace)

/-! ## Allocation validation (`cgroups/allocation.rs`) -/

/-- Structured validation error naming the offending field and its parent
(the `validation` crate is not among the embedded sources; variants are
modelled from the spec: "a structured field error naming the field and its
parent"). -/
inductive ValidationError where
  | Required (field : String) (parent : Option String)
  | Minimum (field : String) (parent : Option String) (units : String)
      (minimum : Int)
  deriving Repr, DecidableEq

/-- Modelled from the spec: `validation::required` — unwraps a present input
or rejects a missing one with an error naming the field and its parent (the
`validation` crate is not among the embedded sources). -/
def validation.required (input : Option Int) (field : String)
    (parent : Option String) : Except ValidationError Int :=
  match input with
  | some v => .ok v
  | none => .error (.Required field parent)

/-- Modelled from the spec: `validation::minimum_value` — rejects an input
below the minimum with an error naming the field and its parent (the
`validation` crate is not among the embedded sources). -/
def validation.minimum_value (input minimum : Int) (units field : String)
    (parent : Option String) : Except ValidationError Unit :=
  if input < minimum then .error (.Minimum field parent units minimum)
  else .ok ()

/-- The `Allocation` newtype over `i64` (`allocation.rs` line 21). -/
structure Allocation where
  val : Int
  deriving Repr, DecidableEq

/-- `Allocation::validate` (`allocation.rs` lines 36–47): require the input,
then check `minimum_value(input, 0, "units", ...)`, then wrap. -/
def Allocation.validate (input : Option Int) (field : String)
    (parent : Option String) : Except ValidationError Allocation :=
  match validation.required input field parent with
  | .error e => .error e
  | .ok input =>
    match validation.minimum_value input 0 "units" field parent with
    | .error e => .error e
    | .ok _ => .ok { val := input }

/-! ## Executable (`executables/executable.rs`) -/

/-- A `tokio::process::Command` as used by `Executable`: program and
arguments. -/
structure Command where
  program : String
  args : List String
  deriving Repr, DecidableEq

/-- A spawned child process handle; identified by its id. The stdout/stderr
streaming tasks of the source are concurrency artifacts with no bearing on
the state machine and are not modelled. -/
structure Child where
  id : Nat
  deriving Repr, DecidableEq

/-- Process exit status. -/
abbrev ExitStatus := Int

/-- `ExecutableState` (`executable.rs` lines 51–66). -/
inductive ExecutableState where
  | Init (command : Command)
  | Started (program : String) (args : List String) (child : Child)
  | Stopped (status : ExitStatus)
  deriving Repr, DecidableEq

/-- The three state kinds, for stating which transitions the machine
admits. -/
inductive StateKind where
  | init
  | started
  | stopped
  deriving Repr, DecidableEq

/-- The kind of an `ExecutableState`. -/
def ExecutableState.kind : ExecutableState → StateKind
  | .Init _ => .init
  | .Started _ _ _ => .started
  | .Stopped _ => .stopped

/-- The `Executable` struct (`executable.rs` lines 44–49). -/
structure Executable where
  name : String
  description : String
  state : ExecutableState
  deriving Repr, DecidableEq

/-- External events performed by executable operations. -/
inductive ExecEvent where
  | spawn
  | signalKill
  | waitChild
  deriving Repr, DecidableEq

/-- Outcome of the external calls an `Executable` operation may make:
`command.spawn()`, `child.kill()` and `child.wait()`. -/
structure ExecEnv where
  spawnRes : Except String Child
  killRes : Except String Unit
  waitRes : Except String ExitStatus
  deriving Repr

/-- Outcome of an executable operation. -/
structure ExecOutcome (α : Type) where
  exe : Executable
  result : Except String α
  trace : List ExecEvent
  deriving Repr

/-- `Executable::new` (`executable.rs` lines 69–73). -/
def Executable.newExe (name description : String) (command : Command) :
    Executable :=
  { name := name, description := description, state := .Init command }

/-- `Executable::start` (`executable.rs` lines 77–138): does nothing unless
in `Init`; spawn failure propagates via `?` leaving the state in `Init`; on
success the state becomes `Started` with the command's program and args. -/
def Executable.start (env : ExecEnv) (x : Executable) : ExecOutcome Unit :=
  match x.state with
  | .Init command =>
    match env.spawnRes with
    | .error e => { exe := x, result := .error e, trace := [.spawn] }
    | .ok child =>
      { exe := { x with
          state := .Started command.program command.args child }
        result := .ok ()
        trace := [.spawn] }
  | _ => { exe := x, result := .ok (), trace := [] }

/-- `Executable::kill` (`executable.rs` lines 142–154): `Init` returns
`Ok(None)` untouched; `Started` kills then waits the child (each `?` leaves
the state in `Started` on error) and moves to `Stopped`; `Stopped` returns
the cached status. -/
def Executable.kill (env : ExecEnv) (x : Executable) :
    ExecOutcome (Option ExitStatus) :=
  match x.state with
  | .Init _ => { exe := x, result := .ok none, trace := [] }
  | .Started _ _ _ =>
    match env.killRes with
    | .error e =>
      { exe := x, result := .error e, trace := [.signalKill] }
    | .ok _ =>
      match env.waitRes with
      | .error e =>
        { exe := x, result := .error e, trace := [.signalKill, .waitChild] }
      | .ok exit_status =>
        { exe := { x with state := .Stopped exit_status }
          result := .ok (some exit_status)
          trace := [.signalKill, .waitChild] }
  | .Stopped status =>
    { exe := x, result := .ok (some status), trace := [] }

/-! ## Concrete fixtures -/

/-- A concrete client configuration. -/
def cfg0 : AuraeConfig := { socket := "sock0" }

/-- A concrete nested daemon handle. -/
def auraed0 : NestedAuraed := { pid := 42, client_config := cfg0 }

/-- A concrete cell spec. -/
def spec0 : CellSpec := { cgroup_spec := { limits := [] }, iso_ctl := { flags := [] } }

/-- A concrete cgroup handle for cell `a`. -/
def cg0 : Cgroup := { cell_name := "a", spec := spec0.cgroup_spec }

/-- A concrete cell in the `Allocated` state. -/
def cellAlloc : Cell :=
  { cell_name := "a", spec := spec0
    state := .Allocated cg0 auraed0 (Cells.new "a") }

/-- A concrete cell in the `Freed` state. -/
def cellFreed : Cell := { cell_name := "a", spec := spec0, state := .Freed }

/-- A concrete cell in the `Unallocated` state. -/
def cellUnalloc : Cell := Cell.new "a" spec0

/-- An environment in which every external call succeeds. -/
def envOk : Env :=
  { nestedNew := .ok auraed0, addTask := .ok (), shutdownRes := .ok 0
    killRes := .ok 9, deleteRes := .ok (), childAllocateRes := .ok ()
    childFreeRes := .ok (), childGetRes := .ok (), childGraphRes := .ok () }

/-- An environment in which `cgroup.delete()` fails. -/
def envDeleteFail : Env := { envOk with deleteRes := .error "EBUSY" }

/-- An environment in which the nested daemon shutdown/kill fails. -/
def envShutdownFail : Env :=
  { envOk with shutdownRes := .error "ESRCH", killRes := .error "ESRCH" }

/-- An environment in which `NestedAuraed::new` fails. -/
def envNewFail : Env := { envOk with nestedNew := .error "spawn failed" }

/-- An environment in which `cgroup.add_task` fails. -/
def envAddTaskFail : Env := { envOk with addTask := .error "invalid cpuset" }

/-- A concrete command. -/
def cmd0 : Command := { program := "sleep", args := ["1"] }

/-- A concrete child process handle. -/
def child0 : Child := { id := 7 }

/-- An executable environment in which every external call succeeds. -/
def execEnvOk : ExecEnv :=
  { spawnRes := .ok child0, killRes := .ok (), waitRes := .ok 7 }

/-- A concrete executable in `Init`. -/
def exeInit : Executable := Executable.newExe "e" "demo" cmd0

/-- A concrete executable in `Started`. -/
def exeStarted : Executable :=
  { name := "e", description := "demo"
    state := .Started cmd0.program cmd0.args child0 }

/-- A concrete executable in `Stopped`. -/
def exeStopped : Executable :=
  { name := "e", description := "demo", state := .Stopped 7 }

/-! ## Claims -/

/-- C1: the claim says every `Cell::free()`/`Cell::kill()` that returns
leaves the state `Freed`, even when the nested daemon shutdown/kill or the
cgroup delete fails. The code violates this: the `?` operator inside
`do_free!` returns from `free`/`kill` before `self.state = CellState::Freed`
is executed, so on failure the state remains `Allocated`. Evaluated here at
the failing inputs: an `Allocated` cell whose `cgroup.delete()` fails during
`free()`, and one whose nested-daemon kill fails during `kill()`. -/
theorem C1_free_failure_leaves_allocated :
    (Cell.free envDeleteFail cellAlloc).result =
      .error (.FailedToFreeCell "a" "EBUSY") ∧
    (Cell.free envDeleteFail cellAlloc).cell.state ≠ .Freed ∧
    (Cell.free envDeleteFail cellAlloc).cell.state =
      .Allocated cg0 auraed0 (Cells.new "a") ∧
    (Cell.kill envShutdownFail cellAlloc).result =
      .error (.FailedToKillCellChildren "a" "ESRCH") ∧
    (Cell.kill envShutdownFail cellAlloc).cell.state ≠ .Freed := by
  refine ⟨rfl, ?_, rfl, rfl, ?_⟩ <;> decide

/-- C2: allocation is idempotent on `Allocated` and `Freed` (success, state
unchanged), and `Freed` is absorbing: neither `allocate`, `free` nor `kill`
(nor the drop path) leaves `Freed`. -/
theorem C2_freed_absorbing_allocate_idempotent (env : Env) (c : Cell) :
    (c.state.isAllocated = true ∨ c.state = .Freed →
      (Cell.allocate env c).cell = c ∧
      (Cell.allocate env c).result = .ok ()) ∧
    (c.state = .Freed →
      (Cell.allocate env c).cell.state = .Freed ∧
      (Cell.free env c).cell.state = .Freed ∧
      (Cell.kill env c).cell.state = .Freed ∧
      (Cell.dropCell env c).1.state = .Freed) := by
  cases h : c.state <;>
    simp [Cell.allocate, Cell.free, Cell.kill, Cell.dropCell, do_free,
      CellState.isAllocated, h]

/-- C2 witness: instantiated at a concrete `Freed` cell. -/
theorem C2_witness :
    (Cell.allocate envOk cellFreed).cell = cellFreed ∧
    (Cell.free envOk cellFreed).cell.state = .Freed ∧
    (Cell.kill envOk cellFreed).cell.state = .Freed := by
  have h := C2_freed_absorbing_allocate_idempotent envOk cellFreed
  exact ⟨(h.1 (Or.inr rfl)).1, (h.2 rfl).2.1, (h.2 rfl).2.2.1⟩

/-- C3: `allocate()` on an `Unallocated` cell that fails leaves the cell
`Unallocated`; a `NestedAuraed::new` failure maps to `FailedToAllocateCell`,
while an `add_task` failure after the daemon started performs best-effort
`kill()` + `delete()` and maps to `AbortedAllocateCell`. -/
theorem C3_allocate_failure_modes (env : Env) (c : Cell)
    (h : c.state = .Unallocated) :
    (∀ e, env.nestedNew = .error e →
      (Cell.allocate env c).result =
        .error (.FailedToAllocateCell c.cell_name e) ∧
      (Cell.allocate env c).cell = c) ∧
    (∀ na e, env.nestedNew = .ok na → env.addTask = .error e →
      (Cell.allocate env c).result =
        .error (.AbortedAllocateCell c.cell_name e) ∧
      (Cell.allocate env c).cell = c ∧
      (Cell.allocate env c).trace =
        [.nestedAuraedNew (CellName.leaf c.cell_name),
         .cgroupAddTask na.pid, .nestedKill, .cgroupDelete]) ∧
    (∀ err, (Cell.allocate env c).result = .error err →
      (Cell.allocate env c).cell.state = .Unallocated) := by
  cases hn : env.nestedNew with
  | error e => simp [Cell.allocate, h, hn]
  | ok na =>
    cases ha : env.addTask with
    | error e => simp [Cell.allocate, h, hn, ha]
    | ok u => simp [Cell.allocate, h, hn, ha]

/-- C3 witness: both failure modes at a concrete `Unallocated` cell. -/
theorem C3_witness :
    (Cell.allocate envNewFail cellUnalloc).result =
      .error (.FailedToAllocateCell "a" "spawn failed") ∧
    (Cell.allocate envAddTaskFail cellUnalloc).result =
      .error (.AbortedAllocateCell "a" "invalid cpuset") ∧
    (Cell.allocate envAddTaskFail cellUnalloc).cell.state = .Unallocated := by
  have h1 := C3_allocate_failure_modes envNewFail cellUnalloc rfl
  have h2 := C3_allocate_failure_modes envAddTaskFail cellUnalloc rfl
  exact ⟨(h1.1 "spawn failed" rfl).1,
    (h2.2.1 auraed0 "invalid cpuset" rfl rfl).1,
    ((h2.2.1 auraed0 "invalid cpuset" rfl rfl).2.1) ▸ rfl⟩

/-- A trace never performs `cgroupDelete` before a nested-daemon exit status
has been obtained: every index holding `cgroupDelete` is preceded by a
strictly earlier index holding `nestedExited`. -/
def deleteAfterExit (t : List Event) : Prop :=
  ∀ i : Nat, t[i]? = some Event.cgroupDelete →
    ∃ j : Nat, j < i ∧ ∃ s, t[j]? = some (Event.nestedExited s)

/-- The successful `do_free!` trace shape satisfies `deleteAfterExit`. -/
theorem deleteAfterExit_full (b nc : Event) (s : Int)
    (hb : b ≠ .cgroupDelete) (hnc : nc ≠ .cgroupDelete) :
    deleteAfterExit [b, nc, .nestedExited s, .cgroupDelete] := by
  intro i hi
  match i with
  | 0 => exact absurd (Option.some_injective _ hi) hb
  | 1 => exact absurd (Option.some_injective _ hi) hnc
  | 2 => simp at hi
  | 3 => exact ⟨2, by omega, s, rfl⟩
  | n + 4 => simp at hi

/-- The failed-call `do_free!` trace shape satisfies `deleteAfterExit`
vacuously. -/
theorem deleteAfterExit_short (b nc : Event)
    (hb : b ≠ .cgroupDelete) (hnc : nc ≠ .cgroupDelete) :
    deleteAfterExit [b, nc] := by
  intro i hi
  match i with
  | 0 => exact absurd (Option.some_injective _ hi) hb
  | 1 => exact absurd (Option.some_injective _ hi) hnc
  | n + 2 => simp at hi

/-- C4: within `free()`/`kill()` on an `Allocated` cell the broadcast to the
children cache comes first, and `cgroup.delete()` is only ever issued after
the nested daemon's exit status has been obtained. -/
theorem C4_free_kill_ordering (env : Env) (c : Cell) (cg : Cgroup)
    (na : NestedAuraed) (ch : Cells)
    (h : c.state = .Allocated cg na ch) :
    ((Cell.free env c).trace.head? = some .childrenBroadcastFree ∧
      deleteAfterExit (Cell.free env c).trace) ∧
    ((Cell.kill env c).trace.head? = some .childrenBroadcastKill ∧
      deleteAfterExit (Cell.kill env c).trace) := by
  constructor
  · cases hs : env.shutdownRes with
    | error e =>
      refine ⟨by simp [Cell.free, do_free, h, hs], ?_⟩
      simp only [Cell.free, do_free, h, hs]
      exact deleteAfterExit_short _ _ (by simp) (by simp)
    | ok s =>
      cases hd : env.deleteRes with
      | error e =>
        refine ⟨by simp [Cell.free, do_free, h, hs, hd], ?_⟩
        simp only [Cell.free, do_free, h, hs, hd]
        exact deleteAfterExit_full _ _ s (by simp) (by simp)
      | ok u =>
        refine ⟨by simp [Cell.free, do_free, h, hs, hd], ?_⟩
        simp only [Cell.free, do_free, h, hs, hd]
        exact deleteAfterExit_full _ _ s (by simp) (by simp)
  · cases hs : env.killRes with
    | error e =>
      refine ⟨by simp [Cell.kill, do_free, h, hs], ?_⟩
      simp only [Cell.kill, do_free, h, hs]
      exact deleteAfterExit_short _ _ (by simp) (by simp)
    | ok s =>
      cases hd : env.deleteRes with
      | error e =>
        refine ⟨by simp [Cell.kill, do_free, h, hs, hd], ?_⟩
        simp only [Cell.kill, do_free, h, hs, hd]
        exact deleteAfterExit_full _ _ s (by simp) (by simp)
      | ok u =>
        refine ⟨by simp [Cell.kill, do_free, h, hs, hd], ?_⟩
        simp only [Cell.kill, do_free, h, hs, hd]
        exact deleteAfterExit_full _ _ s (by simp) (by simp)

/-- C4 witness: instantiated at a concrete `Allocated` cell. -/
theorem C4_witness :
    (Cell.free envOk cellAlloc).trace.head? =
      some Event.childrenBroadcastFree ∧
    (Cell.kill envOk cellAlloc).trace.head? =
      some Event.childrenBroadcastKill := by
  have h := C4_free_kill_ordering envOk cellAlloc cg0 auraed0
    (Cells.new "a") rfl
  exact ⟨h.1.1, h.2.1⟩

/-- C5: the delegated cache operations (`allocate`, `free`, `get`,
`cell_graph`) on a cell that is not `Allocated` fail with
`CellNotAllocated` carrying this cell's name, and the children cache is
never consulted (no child event is performed). -/
theorem C5_cache_ops_require_allocated (env : Env) (c : Cell)
    (child : CellName) (cs : CellSpec)
    (h : c.state.isAllocated = false) :
    (Cell.cacheAllocate env c child cs).result =
      .error (.CellNotAllocated c.cell_name) ∧
    (Cell.cacheAllocate env c child cs).trace = [] ∧
    (Cell.cacheFree env c child).result =
      .error (.CellNotAllocated c.cell_name) ∧
    (Cell.cacheFree env c child).trace = [] ∧
    (Cell.cacheGet env c child).result =
      .error (.CellNotAllocated c.cell_name) ∧
    (Cell.cacheGet env c child).trace = [] ∧
    (Cell.cellGraph env c).result =
      .error (.CellNotAllocated c.cell_name) ∧
    (Cell.cellGraph env c).trace = [] := by
  cases hs : c.state <;>
    simp_all [Cell.cacheAllocate, Cell.cacheFree, Cell.cacheGet,
      Cell.cellGraph, CellState.isAllocated]

/-- C5 witness: instantiated at a concrete `Freed` cell. -/
theorem C5_witness :
    (Cell.cacheAllocate envOk cellFreed "a/b" spec0).result =
      .error (.CellNotAllocated "a") ∧
    (Cell.cellGraph envOk cellFreed).trace = [] := by
  have h := C5_cache_ops_require_allocated envOk cellFreed "a/b" spec0 rfl
  exact ⟨h.1, h.2.2.2.2.2.2.2⟩

/-- C6: `Drop` invokes `kill()` best-effort and discards its result; for a
cell that is not `Allocated` the drop performs no kernel-resource operation,
while for an `Allocated` cell (with the signals succeeding) it kills the
nested daemon and deletes the cgroup, and no error escapes the drop. -/
theorem C6_drop_kills_best_effort (env : Env) (c : Cell) :
    Cell.dropCell env c = ((Cell.kill env c).cell, (Cell.kill env c).trace) ∧
    (c.state.isAllocated = false → (Cell.dropCell env c).2 = []) ∧
    (∀ cg na ch s, c.state = .Allocated cg na ch → env.killRes = .ok s →
      env.deleteRes = .ok () →
      (Cell.dropCell env c).2 =
        [.childrenBroadcastKill, .nestedKill, .nestedExited s,
         .cgroupDelete]) := by
  refine ⟨rfl, ?_, ?_⟩
  · intro h
    cases hs : c.state <;>
      simp_all [Cell.dropCell, Cell.kill, do_free, CellState.isAllocated]
  · intro cg na ch s h hk hd
    simp [Cell.dropCell, Cell.kill, do_free, h, hk, hd]

/-- C6 witness: a dropped `Allocated` cell kills the daemon and deletes the
cgroup; a dropped `Freed` cell performs nothing. -/
theorem C6_witness :
    (Cell.dropCell envOk cellAlloc).2 =
      [Event.childrenBroadcastKill, Event.nestedKill, Event.nestedExited 9,
       Event.cgroupDelete] ∧
    (Cell.dropCell envOk cellFreed).2 = [] := by
  have h1 := C6_drop_kills_best_effort envOk cellAlloc
  have h2 := C6_drop_kills_best_effort envOk cellFreed
  exact ⟨h1.2.2 cg0 auraed0 (Cells.new "a") 9 rfl rfl rfl, h2.2.1 rfl⟩

/-- C7: `Allocation::validate` succeeds, returning the wrapped `i64`,
exactly when the input is present and non-negative; a missing or negative
input is rejected with a structured error naming the field and its
parent. -/
theorem C7_allocation_validate (input : Option Int) (f : String)
    (p : Option String) :
    (∀ v : Int, Allocation.validate input f p = .ok { val := v } ↔
      input = some v ∧ 0 ≤ v) ∧
    (input = none →
      Allocation.validate input f p = .error (.Required f p)) ∧
    (∀ v : Int, input = some v → v < 0 →
      Allocation.validate input f p =
        .error (.Minimum f p "units" 0)) := by
  cases input with
  | none =>
    simp [Allocation.validate, validation.required, validation.minimum_value]
  | some v =>
    refine ⟨?_, by simp, ?_⟩
    · intro w
      by_cases hv : v < 0
      · constructor
        · intro h
          simp [Allocation.validate, validation.required,
            validation.minimum_value, if_pos hv] at h
        · rintro ⟨hsw, hw⟩
          injection hsw with hvw
          omega
      · constructor
        · intro h
          simp [Allocation.validate, validation.required,
            validation.minimum_value, if_neg hv,
            Allocation.mk.injEq] at h
          subst h
          exact ⟨rfl, by omega⟩
        · rintro ⟨hsw, hw⟩
          injection hsw with hvw
          subst hvw
          simp [Allocation.validate, validation.required,
            validation.minimum_value, if_neg hv]
    · intro w hw hneg
      cases hw
      simp [Allocation.validate, validation.required,
        validation.minimum_value, if_pos hneg]

/-- C7 witness: a present non-negative input is accepted; a missing and a
negative input are rejected with errors naming the field and parent. -/
theorem C7_witness :
    Allocation.validate (some 5) "weight" (some "cpu") =
      .ok { val := 5 } ∧
    Allocation.validate none "weight" (some "cpu") =
      .error (.Required "weight" (some "cpu")) ∧
    Allocation.validate (some (-1)) "weight" (some "cpu") =
      .error (.Minimum "weight" (some "cpu") "units" 0) := by
  have h1 := C7_allocation_validate (some 5) "weight" (some "cpu")
  have h2 := C7_allocation_validate none "weight" (some "cpu")
  have h3 := C7_allocation_validate (some (-1)) "weight" (some "cpu")
  exact ⟨(h1.1 5).2 ⟨rfl, by omega⟩, h2.2.1 rfl,
    h3.2.2 (-1) rfl (by omega)⟩

/-- C8: `client_config()` returns a clone of the nested daemon's
pre-generated configuration when `Allocated`, and fails with
`CellNotAllocated` carrying the cell's name otherwise. -/
theorem C8_client_config (c : Cell) :
    (∀ cg na ch, c.state = .Allocated cg na ch →
      Cell.client_config c = .ok na.client_config) ∧
    (c.state.isAllocated = false →
      Cell.client_config c = .error (.CellNotAllocated c.cell_name)) := by
  constructor
  · intro cg na ch h
    simp [Cell.client_config, h]
  · intro h
    cases hs : c.state <;>
      simp_all [Cell.client_config, CellState.isAllocated]

/-- C8 witness: at a concrete `Allocated` cell and a concrete `Freed`
cell. -/
theorem C8_witness :
    Cell.client_config cellAlloc = .ok cfg0 ∧
    Cell.client_config cellFreed = .error (.CellNotAllocated "a") := by
  have h1 := C8_client_config cellAlloc
  have h2 := C8_client_config cellFreed
  exact ⟨h1.1 cg0 auraed0 (Cells.new "a") rfl, h2.2 rfl⟩

/-- C9: the cell's name and spec are never mutated: `name()`/`spec()`
return the construction-time values, and every operation — `allocate`,
`free`, `kill`, the drop path, and the four delegated cache operations —
preserves both fields. -/
theorem C9_name_spec_immutable (env : Env) (c : Cell) (n : CellName)
    (s : CellSpec) (child : CellName) (cs : CellSpec) :
    (Cell.name (Cell.new n s) = n ∧ Cell.specOf (Cell.new n s) = s) ∧
    ((Cell.allocate env c).cell.cell_name = c.cell_name ∧
      (Cell.allocate env c).cell.spec = c.spec) ∧
    ((Cell.free env c).cell.cell_name = c.cell_name ∧
      (Cell.free env c).cell.spec = c.spec) ∧
    ((Cell.kill env c).cell.cell_name = c.cell_name ∧
      (Cell.kill env c).cell.spec = c.spec) ∧
    ((Cell.dropCell env c).1.cell_name = c.cell_name ∧
      (Cell.dropCell env c).1.spec = c.spec) ∧
    ((Cell.cacheAllocate env c child cs).cell.cell_name = c.cell_name ∧
      (Cell.cacheAllocate env c child cs).cell.spec = c.spec) ∧
    ((Cell.cacheFree env c child).cell.cell_name = c.cell_name ∧
      (Cell.cacheFree env c child).cell.spec = c.spec) ∧
    ((Cell.cacheGet env c child).cell.cell_name = c.cell_name ∧
      (Cell.cacheGet env c child).cell.spec = c.spec) ∧
    ((Cell.cellGraph env c).cell.cell_name = c.cell_name ∧
      (Cell.cellGraph env c).cell.spec = c.spec) := by
  refine ⟨⟨rfl, rfl⟩, ?_, ?_, ?_, ?_, ?_, ?_, ?_, ?_⟩ <;>
    cases hs : c.state <;>
    cases hn : env.nestedNew <;>
    cases ha : env.addTask <;>
    cases hsr : env.shutdownRes <;>
    cases hk : env.killRes <;>
    cases hd : env.deleteRes <;>
    simp [Cell.allocate, Cell.free, Cell.kill, Cell.dropCell, do_free,
      Cell.cacheAllocate, Cell.cacheFree, Cell.cacheGet, Cell.cellGraph,
      hs, hn, ha, hsr, hk, hd]

/-- C10: the `Executable` state machine admits only `Init → Started` (via
`start`) and `Started → Stopped` (via `kill`); `start` on `Started` or
`Stopped` is a no-op returning `Ok`; `kill` on `Init` returns `Ok(None)`
and leaves the state untouched so a later `start` can still succeed; `kill`
on `Stopped` is idempotent, returning the cached exit status without
spawning or signalling. -/
theorem C10_executable_state_machine (env : ExecEnv) (x : Executable) :
    (x.state.kind ≠ .init →
      (Executable.start env x).exe = x ∧
      (Executable.start env x).result = .ok () ∧
      (Executable.start env x).trace = []) ∧
    (∀ cmd, x.state = .Init cmd →
      (Executable.kill env x).exe = x ∧
      (Executable.kill env x).result = .ok none ∧
      (Executable.kill env x).trace = [] ∧
      (∀ child, env.spawnRes = .ok child →
        (Executable.start env (Executable.kill env x).exe).exe.state =
          .Started cmd.program cmd.args child)) ∧
    (∀ s, x.state = .Stopped s →
      (Executable.kill env x).exe = x ∧
      (Executable.kill env x).result = .ok (some s) ∧
      (Executable.kill env x).trace = []) ∧
    ((Executable.start env x).exe.state.kind = x.state.kind ∨
      (x.state.kind = .init ∧
        (Executable.start env x).exe.state.kind = .started)) ∧
    ((Executable.kill env x).exe.state.kind = x.state.kind ∨
      (x.state.kind = .started ∧
        (Executable.kill env x).exe.state.kind = .stopped)) := by
  cases hs : x.state <;>
    cases hsp : env.spawnRes <;>
    cases hk : env.killRes <;>
    cases hw : env.waitRes <;>
    simp [Executable.start, Executable.kill, ExecutableState.kind,
      hs, hsp, hk, hw]

/-- C10 witness: concrete executables in each state. -/
theorem C10_witness :
    (Executable.start execEnvOk exeStarted).exe = exeStarted ∧
    (Executable.kill execEnvOk exeInit).result = .ok none ∧
    (Executable.kill execEnvOk exeStopped).result = .ok (some 7) ∧
    (Executable.kill execEnvOk exeStopped).trace = [] := by
  have h1 := C10_executable_state_machine execEnvOk exeStarted
  have h2 := C10_executable_state_machine execEnvOk exeInit
  have h3 := C10_executable_state_machine execEnvOk exeStopped
  exact ⟨(h1.1 (by decide)).1, (h2.2.1 cmd0 rfl).2.1,
    (h3.2.2.1 7 rfl).2.1, (h3.2.2.1 7 rfl).2.2⟩

end Aurae
